import Mathlib

/-!
Verification development for the TTS (text-to-speech) provider subsystem:
a shallow embedding of the cost calculator (`src/shared/ttsCost.ts`, plus the
Azure half of the combined cost module), the provider manager
(`src/utils/tts/TtsProviderManager.ts`) and the Azure provider's playing-flag
protocol (`src/utils/tts/AzureTtsProvider.ts`), together with theorems about
the embedded definitions.

Conventions of the embedding:
- JS `number` character counts are `Int` (they are integers in every code
  path that matters); USD amounts are `ℚ` so the pricing constants are exact.
- The current wall-clock month (`new Date()` → `"YYYY-MM"`) is threaded as an
  explicit `nowKey : String` parameter.
- `undefined`/optional values are `Option`; JS string falsiness (empty string
  counts as absent) is modelled explicitly where the source relies on it.
- Asynchronous suspension points are modelled by explicit scheduling inputs:
  the drain loop of the manager takes, for each `await provider.speak`, the
  list of items that other callers enqueue while that call is in flight.
-/

namespace TtsCost

/-- Model-type tags of `GoogleCloudTtsModelType` in `ttsCost.ts`. -/
inductive GoogleCloudTtsModelType
  | wavenet
  | studio
  | standard
  | neural2
  | polyglot
  | chirp3Hd
  | instantCustom
  deriving DecidableEq, Repr

open GoogleCloudTtsModelType

/-- The per-model usage counters of `GoogleCloudTtsUsage.usage`. -/
structure GoogleUsageCounters where
  wavenet : Int
  studio : Int
  standard : Int
  neural2 : Int
  polyglot : Int
  chirp3Hd : Int
  instantCustom : Int
  deriving DecidableEq, Repr

/-- `GoogleCloudTtsUsage`: the monthly ledger for the Google Cloud backend. -/
structure GoogleCloudTtsUsage where
  lastResetDate : String
  usage : GoogleUsageCounters
  deriving DecidableEq, Repr

/-- `TtsCostDetails` returned by `calculateTtsCost`. -/
structure TtsCostDetails where
  modelType : GoogleCloudTtsModelType
  charactersUsed : Int
  charactersCostFree : Int
  charactersCostPaid : Int
  cost : ℚ
  deriving DecidableEq, Repr

/-- The `PRICING` table (USD per character) of `ttsCost.ts`. -/
def PRICING : GoogleCloudTtsModelType → ℚ
  | wavenet => 4 / 1000000
  | studio => 160 / 1000000
  | standard => 4 / 1000000
  | neural2 => 16 / 1000000
  | polyglot => 16 / 1000000
  | chirp3Hd => 30 / 1000000
  | instantCustom => 60 / 1000000

/-- The `FREE_TIER` table (characters per month) of `ttsCost.ts`. -/
def FREE_TIER : GoogleCloudTtsModelType → Int
  | wavenet => 4000000
  | studio => 1000000
  | standard => 4000000
  | neural2 => 1000000
  | polyglot => 1000000
  | chirp3Hd => 1000000
  | instantCustom => 0

/-- Read the counter of one model type (`usage.usage[modelType]`). -/
def GoogleUsageCounters.get (u : GoogleUsageCounters) : GoogleCloudTtsModelType → Int
  | .wavenet => u.wavenet
  | .studio => u.studio
  | .standard => u.standard
  | .neural2 => u.neural2
  | .polyglot => u.polyglot
  | .chirp3Hd => u.chirp3Hd
  | .instantCustom => u.instantCustom

/-- Add to the counter of one model type
(`updatedUsage.usage[modelType] += charactersUsed`). -/
def GoogleUsageCounters.add (u : GoogleUsageCounters) (m : GoogleCloudTtsModelType)
    (n : Int) : GoogleUsageCounters :=
  match m with
  | .wavenet => { u with wavenet := u.wavenet + n }
  | .studio => { u with studio := u.studio + n }
  | .standard => { u with standard := u.standard + n }
  | .neural2 => { u with neural2 := u.neural2 + n }
  | .polyglot => { u with polyglot := u.polyglot + n }
  | .chirp3Hd => { u with chirp3Hd := u.chirp3Hd + n }
  | .instantCustom => { u with instantCustom := u.instantCustom + n }

/-- The all-zero counters used by `initializeUsageTracking`. -/
def zeroCounters : GoogleUsageCounters := ⟨0, 0, 0, 0, 0, 0, 0⟩

/-- `initializeUsageTracking`: a fresh zeroed ledger stamped with the current
month; the source computes the stamp from `new Date()`, modelled by the
explicit `nowKey`. -/
def initializeUsageTracking (nowKey : String) : GoogleCloudTtsUsage :=
  { lastResetDate := nowKey, usage := zeroCounters }

/-- `shouldResetUsage`: true when the ledger is absent or stamped with a
month other than the current one. -/
def shouldResetUsage (nowKey : String) : Option GoogleCloudTtsUsage → Bool
  | none => true
  | some u => u.lastResetDate != nowKey

/-- `calculateTtsCost`: split a character count into free-tier and paid
characters given the usage already consumed this month, and price the paid
ones. -/
def calculateTtsCost (modelType : GoogleCloudTtsModelType)
    (charactersUsed currentUsage : Int) : TtsCostDetails :=
  let freeTierLimit := FREE_TIER modelType
  let pricePerCharacter := PRICING modelType
  let remainingFreeTier := max 0 (freeTierLimit - currentUsage)
  let charactersCostFree := min charactersUsed remainingFreeTier
  let charactersCostPaid := max 0 (charactersUsed - charactersCostFree)
  { modelType := modelType
    charactersUsed := charactersUsed
    charactersCostFree := charactersCostFree
    charactersCostPaid := charactersCostPaid
    cost := (charactersCostPaid : ℚ) * pricePerCharacter }

/-- `updateTtsUsage`: reset/initialize the ledger when stale, then add the
new characters to the counter of the model type that was used. -/
def updateTtsUsage (nowKey : String) (usage : Option GoogleCloudTtsUsage)
    (modelType : GoogleCloudTtsModelType) (charactersUsed : Int) :
    GoogleCloudTtsUsage :=
  let currentUsage :=
    if shouldResetUsage nowKey usage then initializeUsageTracking nowKey
    else usage.getD (initializeUsageTracking nowKey)
  { lastResetDate := currentUsage.lastResetDate
    usage := currentUsage.usage.add modelType charactersUsed }

/-- `AzureTtsTier`. -/
inductive AzureTtsTier
  | F0
  | S0
  deriving DecidableEq, Repr

/-- `AzureTtsVoiceType`. -/
inductive AzureTtsVoiceType
  | neural
  | neuralHd
  | custom
  deriving DecidableEq, Repr

/-- `AzureTtsUsage`: the monthly ledger for the Azure backend, keyed by a
single tier rather than per model. -/
structure AzureTtsUsage where
  lastResetDate : String
  tier : AzureTtsTier
  charactersUsed : Int
  deriving DecidableEq, Repr

/-- `AzureTtsCostDetails` returned by `calculateAzureTtsCost`. -/
structure AzureTtsCostDetails where
  voiceType : AzureTtsVoiceType
  charactersUsed : Int
  charactersCostFree : Int
  charactersCostPaid : Int
  cost : ℚ
  deriving DecidableEq, Repr

/-- The `AZURE_PRICING` table (USD per character, S0 tier). -/
def AZURE_PRICING : AzureTtsVoiceType → ℚ
  | AzureTtsVoiceType.neural => 15 / 1000000
  | AzureTtsVoiceType.neuralHd => 30 / 1000000
  | AzureTtsVoiceType.custom => 24 / 1000000

/-- `AZURE_F0_FREE_LIMIT`: monthly free characters of the F0 tier. -/
def AZURE_F0_FREE_LIMIT : Int := 500000

/-- `initializeAzureUsageTracking`. -/
def initializeAzureUsageTracking (nowKey : String) (tier : AzureTtsTier) :
    AzureTtsUsage :=
  { lastResetDate := nowKey, tier := tier, charactersUsed := 0 }

/-- `shouldResetAzureUsage`. -/
def shouldResetAzureUsage (nowKey : String) : Option AzureTtsUsage → Bool
  | none => true
  | some u => u.lastResetDate != nowKey

/-- `calculateAzureTtsCost`: F0 never bills (overage is neither free nor
paid); S0 bills every character with no free allowance. -/
def calculateAzureTtsCost (tier : AzureTtsTier) (voiceType : AzureTtsVoiceType)
    (charactersUsed currentUsage : Int) : AzureTtsCostDetails :=
  let pricePerCharacter := AZURE_PRICING voiceType
  match tier with
  | AzureTtsTier.F0 =>
    let remainingFreeTier := max 0 (AZURE_F0_FREE_LIMIT - currentUsage)
    let charactersCostFree := min charactersUsed remainingFreeTier
    { voiceType := voiceType
      charactersUsed := charactersUsed
      charactersCostFree := charactersCostFree
      charactersCostPaid := 0
      cost := 0 }
  | AzureTtsTier.S0 =>
    { voiceType := voiceType
      charactersUsed := charactersUsed
      charactersCostFree := 0
      charactersCostPaid := charactersUsed
      cost := (charactersUsed : ℚ) * pricePerCharacter }

/-- `updateAzureTtsUsage`: reset when stale or when the stored tier differs
from the tier now in use, then accumulate into the single counter. -/
def updateAzureTtsUsage (nowKey : String) (usage : Option AzureTtsUsage)
    (tier : AzureTtsTier) (charactersUsed : Int) : AzureTtsUsage :=
  let currentUsage :=
    if shouldResetAzureUsage nowKey usage then initializeAzureUsageTracking nowKey tier
    else usage.getD (initializeAzureUsageTracking nowKey tier)
  let currentUsage :=
    if currentUsage.tier ≠ tier then initializeAzureUsageTracking nowKey tier
    else currentUsage
  { currentUsage with charactersUsed := currentUsage.charactersUsed + charactersUsed }

end TtsCost

namespace TtsCost

/-- Adding to a model type's counter changes exactly that counter. -/
theorem GoogleUsageCounters.get_add_self (u : GoogleUsageCounters)
    (m : GoogleCloudTtsModelType) (n : Int) : (u.add m n).get m = u.get m + n := by
  cases m <;> rfl

/-- Adding to a model type's counter leaves every other counter unchanged. -/
theorem GoogleUsageCounters.get_add_ne (u : GoogleUsageCounters)
    (m m' : GoogleCloudTtsModelType) (n : Int) (h : m' ≠ m) :
    (u.add m n).get m' = u.get m' := by
  cases m <;> cases m' <;> first | rfl | exact absurd rfl h

/-- Every counter of the fresh ledger is zero. -/
theorem zeroCounters_get (m : GoogleCloudTtsModelType) : zeroCounters.get m = 0 := by
  cases m <;> rfl

/-- C1: for every Google Cloud model type and for Azure tier S0 (the
non-hard-cap classifications), the cost breakdown splits the character count
exhaustively: `charactersCostFree + charactersCostPaid = c` for all
non-negative `c` and prior usage `u`. -/
theorem cost_split_exhaustive (m : GoogleCloudTtsModelType)
    (vt : AzureTtsVoiceType) (c u : Int) (hc : 0 ≤ c) (hu : 0 ≤ u) :
    (calculateTtsCost m c u).charactersCostFree
        + (calculateTtsCost m c u).charactersCostPaid = c
    ∧ (calculateAzureTtsCost AzureTtsTier.S0 vt c u).charactersCostFree
        + (calculateAzureTtsCost AzureTtsTier.S0 vt c u).charactersCostPaid = c := by
  constructor
  · simp only [calculateTtsCost]
    rcases le_total c (max 0 (FREE_TIER m - u)) with h | h <;>
      simp [min_def, max_def, h] <;> omega
  · simp [calculateAzureTtsCost]

/-- Witness for `cost_split_exhaustive` at a concrete input. -/
theorem cost_split_exhaustive_witness :
    (calculateTtsCost GoogleCloudTtsModelType.wavenet 2000000 3000000).charactersCostFree
        + (calculateTtsCost GoogleCloudTtsModelType.wavenet 2000000 3000000).charactersCostPaid
      = 2000000
    ∧ (calculateAzureTtsCost AzureTtsTier.S0 AzureTtsVoiceType.neural 2000000 3000000).charactersCostFree
        + (calculateAzureTtsCost AzureTtsTier.S0 AzureTtsVoiceType.neural 2000000 3000000).charactersCostPaid
      = 2000000 :=
  cost_split_exhaustive GoogleCloudTtsModelType.wavenet AzureTtsVoiceType.neural
    2000000 3000000 (by decide) (by decide)

/-- C2: the hard-cap tier Azure F0 never bills: `cost = 0` and
`charactersCostPaid = 0` for every character count and every prior usage,
however large the overage. -/
theorem azure_f0_never_bills (vt : AzureTtsVoiceType) (c u : Int) :
    (calculateAzureTtsCost AzureTtsTier.F0 vt c u).cost = 0
    ∧ (calculateAzureTtsCost AzureTtsTier.F0 vt c u).charactersCostPaid = 0 := by
  simp [calculateAzureTtsCost]

/-- C8: when the stored ledger is absent or stamped with a month other than
the current one, the update resets every counter to zero before adding the
new amount: the resulting Google ledger carries exactly the new amount for
the model type used and zero for every other model type, stamped with the
current month; the resulting Azure ledger is exactly the fresh ledger plus
the new amount. -/
theorem stale_ledger_resets (nowKey : String) (gu : Option GoogleCloudTtsUsage)
    (au : Option AzureTtsUsage) (m m' : GoogleCloudTtsModelType)
    (tier : AzureTtsTier) (c : Int)
    (hg : ∀ L, gu = some L → L.lastResetDate ≠ nowKey)
    (ha : ∀ L, au = some L → L.lastResetDate ≠ nowKey)
    (hm : m' ≠ m) :
    (updateTtsUsage nowKey gu m c).usage.get m = c
    ∧ (updateTtsUsage nowKey gu m c).usage.get m' = 0
    ∧ (updateTtsUsage nowKey gu m c).lastResetDate = nowKey
    ∧ updateAzureTtsUsage nowKey au tier c = ⟨nowKey, tier, c⟩ := by
  have hgr : shouldResetUsage nowKey gu = true := by
    cases gu with
    | none => rfl
    | some L => simpa [shouldResetUsage, bne_iff_ne] using hg L rfl
  have har : shouldResetAzureUsage nowKey au = true := by
    cases au with
    | none => rfl
    | some L => simpa [shouldResetAzureUsage, bne_iff_ne] using ha L rfl
  refine ⟨?_, ?_, ?_, ?_⟩
  · simp [updateTtsUsage, hgr, initializeUsageTracking,
      GoogleUsageCounters.get_add_self, zeroCounters_get]
  · simp [updateTtsUsage, hgr, initializeUsageTracking,
      GoogleUsageCounters.get_add_ne _ _ _ _ hm, zeroCounters_get]
  · simp [updateTtsUsage, hgr, initializeUsageTracking]
  · simp [updateAzureTtsUsage, har, initializeAzureUsageTracking]

/-- Witness for `stale_ledger_resets`: a ledger from 2025-09 updated in
2025-10, and an absent Azure ledger. -/
theorem stale_ledger_resets_witness :
    (updateTtsUsage "2025-10" (some ⟨"2025-09", ⟨1, 2, 3, 4, 5, 6, 7⟩⟩)
        GoogleCloudTtsModelType.wavenet 100).usage.get GoogleCloudTtsModelType.wavenet = 100
    ∧ (updateTtsUsage "2025-10" (some ⟨"2025-09", ⟨1, 2, 3, 4, 5, 6, 7⟩⟩)
        GoogleCloudTtsModelType.wavenet 100).usage.get GoogleCloudTtsModelType.studio = 0
    ∧ (updateTtsUsage "2025-10" (some ⟨"2025-09", ⟨1, 2, 3, 4, 5, 6, 7⟩⟩)
        GoogleCloudTtsModelType.wavenet 100).lastResetDate = "2025-10"
    ∧ updateAzureTtsUsage "2025-10" none AzureTtsTier.F0 100 = ⟨"2025-10", AzureTtsTier.F0, 100⟩ :=
  stale_ledger_resets "2025-10" (some ⟨"2025-09", ⟨1, 2, 3, 4, 5, 6, 7⟩⟩) none
    GoogleCloudTtsModelType.wavenet GoogleCloudTtsModelType.studio AzureTtsTier.F0 100
    (by intro L hL; cases hL; decide)
    (by intro L hL; cases hL)
    (by decide)

/-- C9: within the same period the Google ledger accumulates: updating by 100
then by 50 for the same model type adds 150 to that model's counter, and
yields exactly 150 starting from a fresh ledger. -/
theorem same_period_accumulates (L : GoogleCloudTtsUsage)
    (m : GoogleCloudTtsModelType) (nowKey : String)
    (h : L.lastResetDate = nowKey) :
    (updateTtsUsage nowKey (some (updateTtsUsage nowKey (some L) m 100)) m 50).usage.get m
      = L.usage.get m + 150
    ∧ (updateTtsUsage nowKey
        (some (updateTtsUsage nowKey (some (initializeUsageTracking nowKey)) m 100)) m 50).usage.get m
      = 150 := by
  have hfresh : ∀ (L' : GoogleCloudTtsUsage), L'.lastResetDate = nowKey →
      shouldResetUsage nowKey (some L') = false := by
    intro L' hL'
    simp [shouldResetUsage, bne_iff_ne, hL']
  constructor
  · have h1 := hfresh L h
    have h2 : shouldResetUsage nowKey (some ⟨L.lastResetDate, L.usage.add m 100⟩) = false :=
      hfresh ⟨L.lastResetDate, L.usage.add m 100⟩ h
    simp [updateTtsUsage, h1, h2, GoogleUsageCounters.get_add_self]
    omega
  · have h1 := hfresh (initializeUsageTracking nowKey) rfl
    have h2 : shouldResetUsage nowKey (some ⟨nowKey, zeroCounters.add m 100⟩) = false :=
      hfresh ⟨nowKey, zeroCounters.add m 100⟩ rfl
    simp [updateTtsUsage, h1, h2, initializeUsageTracking,
      GoogleUsageCounters.get_add_self, zeroCounters_get]

/-- Witness for `same_period_accumulates` at a concrete ledger. -/
theorem same_period_accumulates_witness :
    (updateTtsUsage "2025-10"
        (some (updateTtsUsage "2025-10" (some ⟨"2025-10", ⟨7, 0, 0, 0, 0, 0, 0⟩⟩)
          GoogleCloudTtsModelType.wavenet 100))
        GoogleCloudTtsModelType.wavenet 50).usage.get GoogleCloudTtsModelType.wavenet
      = (⟨"2025-10", ⟨7, 0, 0, 0, 0, 0, 0⟩⟩ : GoogleCloudTtsUsage).usage.get
          GoogleCloudTtsModelType.wavenet + 150
    ∧ (updateTtsUsage "2025-10"
        (some (updateTtsUsage "2025-10" (some (initializeUsageTracking "2025-10"))
          GoogleCloudTtsModelType.wavenet 100))
        GoogleCloudTtsModelType.wavenet 50).usage.get GoogleCloudTtsModelType.wavenet
      = 150 :=
  same_period_accumulates ⟨"2025-10", ⟨7, 0, 0, 0, 0, 0, 0⟩⟩
    GoogleCloudTtsModelType.wavenet "2025-10" rfl

end TtsCost

namespace TtsManager

/-- `TtsProviderType` of `types.ts`. -/
inductive TtsProviderType
  | native
  | googleCloud
  | azure
  deriving DecidableEq, Repr

/-- `TtsSpeakOptions` of `types.ts`; the `onStart`/`onStop` callbacks are
side-effect hooks invoked by the backends, not inspected by the manager, so
they are not part of the embedded record. -/
structure TtsSpeakOptions where
  voice : Option String := none
  speed : Option ℚ := none
  deriving DecidableEq, Repr

/-- One entry of the manager's `queue` field. -/
structure QueueItem where
  text : String
  options : TtsSpeakOptions
  deriving DecidableEq, Repr

/-- Observable backend calls made by the manager while draining: each
`provider.speak(text, options)` dispatch, together with whether that call
resolved (`ok = true`) or rejected. -/
inductive Ev
  | speakCall (provider : TtsProviderType) (text : String)
      (options : TtsSpeakOptions) (ok : Bool)
  deriving DecidableEq, Repr

/-- Abstraction of the registered backend instances: what each backend's
`isConfigured()` returns, and whether its `speak(text, options)` resolves or
rejects. The manager only observes backends through these two entry points
in the operations modelled here. -/
structure ProviderBehavior where
  isConfigured : TtsProviderType → Bool
  speakOk : TtsProviderType → String → TtsSpeakOptions → Bool

/-- The mutable fields of `TtsProviderManager`: the keys of the `providers`
map, `activeProviderType`, `currentVoice`, `queue` and `isProcessing`. -/
structure ManagerState where
  providers : List TtsProviderType
  activeProviderType : TtsProviderType
  currentVoice : Option String
  queue : List QueueItem
  isProcessing : Bool
  deriving DecidableEq, Repr

/-- `getActiveProvider`: returns the active backend, falling back to native
(and committing that fallback to `activeProviderType`) when the active entry
is missing from the map. -/
def getActiveProvider (st : ManagerState) : TtsProviderType × ManagerState :=
  if st.activeProviderType ∈ st.providers then (st.activeProviderType, st)
  else (TtsProviderType.native, { st with activeProviderType := TtsProviderType.native })

/-- `getActiveProviderType`. -/
def getActiveProviderType (st : ManagerState) : TtsProviderType :=
  st.activeProviderType

/-- `setVoice`: stores the voice id in the single `currentVoice` field. -/
def setVoice (st : ManagerState) (voiceId : String) : ManagerState :=
  { st with currentVoice := some voiceId }

/-- `getVoice`. -/
def getVoice (st : ManagerState) : Option String :=
  st.currentVoice

/-- The literal id strings used in the manager's error messages. -/
def providerTypeName : TtsProviderType → String
  | TtsProviderType.native => "native"
  | TtsProviderType.googleCloud => "google-cloud"
  | TtsProviderType.azure => "azure"

/-- `setActiveProvider`: look up the backend (throwing
`Provider ... is not configured` when absent), check `isConfigured()`
(throwing `Provider ... is not properly configured` when false), and only
then commit `activeProviderType`. -/
def setActiveProvider (beh : ProviderBehavior) (st : ManagerState)
    (p : TtsProviderType) : ManagerState × Except String Unit :=
  if p ∈ st.providers then
    if beh.isConfigured p then
      ({ st with activeProviderType := p }, Except.ok ())
    else
      (st, Except.error ("Provider " ++ providerTypeName p ++ " is not properly configured"))
  else
    (st, Except.error ("Provider " ++ providerTypeName p ++ " is not configured"))

/-- JS falsiness of an optional string: `undefined` and `""` are falsy. The
manager relies on it in `speak` (`if (!options.voice && this.currentVoice)`). -/
def strFalsy : Option String → Bool
  | none => true
  | some s => s == ""

/-- The voice-defaulting step at the top of `speak`: fill in
`options.voice` from `currentVoice` when the caller passed no (truthy)
voice and a (truthy) current voice exists. -/
def defaultVoice (currentVoice : Option String) (options : TtsSpeakOptions) :
    TtsSpeakOptions :=
  if strFalsy options.voice && !strFalsy currentVoice then
    { options with voice := currentVoice }
  else options

/-- One iteration body of the `processQueue` drain loop, after `shift()`:
resolve the active backend via `getActiveProvider` semantics, `await`
`provider.speak`; on rejection, if the active backend is not native and a
native backend is registered, `await` native's `speak` once with the same
item, swallowing any fallback failure. Returns the (possibly updated)
`activeProviderType` and the backend calls made. Every exception path of the
source is caught inside this body, so it has no error outcome. -/
def dispatchOnActive (beh : ProviderBehavior) (providers : List TtsProviderType)
    (act : TtsProviderType) (it : QueueItem) : TtsProviderType × List Ev :=
  let act1 := if act ∈ providers then act else TtsProviderType.native
  if beh.speakOk act1 it.text it.options then
    (act1, [Ev.speakCall act1 it.text it.options true])
  else if act1 ≠ TtsProviderType.native then
    if TtsProviderType.native ∈ providers then
      (act1, [Ev.speakCall act1 it.text it.options false,
              Ev.speakCall TtsProviderType.native it.text it.options
                (beh.speakOk TtsProviderType.native it.text it.options)])
    else
      (act1, [Ev.speakCall act1 it.text it.options false])
  else
    (act1, [Ev.speakCall act1 it.text it.options false])

/-- The drain loop of `processQueue` once no further concurrent enqueues
occur: pop the head, dispatch it, continue until the queue is empty. -/
def drainAll (beh : ProviderBehavior) (providers : List TtsProviderType) :
    List QueueItem → TtsProviderType → TtsProviderType × List Ev
  | [], act => (act, [])
  | it :: rest, act =>
    let d := dispatchOnActive beh providers act it
    let r := drainAll beh providers rest d.1
    (r.1, d.2 ++ r.2)

/-- The drain loop of `processQueue` under cooperative concurrency: the
`k`-th entry of `arrivals` lists the items that other `speak` callers push
onto the queue while the `k`-th dispatch is suspended at `await`; those
items are appended before the loop's next `shift()`. When the queue empties
the loop exits; arrivals indexed beyond the dispatches that actually happen
never occur. -/
def drainArr (beh : ProviderBehavior) (providers : List TtsProviderType) :
    List (List QueueItem) → List QueueItem → TtsProviderType →
    TtsProviderType × List Ev
  | [], q, act => drainAll beh providers q act
  | _ :: _, [], act => (act, [])
  | a :: arrRest, it :: rest, act =>
    let d := dispatchOnActive beh providers act it
    let r := drainArr beh providers arrRest (rest ++ a) d.1
    (r.1, d.2 ++ r.2)

/-- `processQueue`: return immediately when a drain is already running or
the queue is empty; otherwise set `isProcessing`, drain the whole queue
(with `arrivals` scheduling concurrent enqueues), and finally clear
`isProcessing`. -/
def processQueue (beh : ProviderBehavior) (arrivals : List (List QueueItem))
    (st : ManagerState) : ManagerState × List Ev :=
  if st.isProcessing ∨ st.queue = [] then (st, [])
  else
    let r := drainArr beh st.providers arrivals st.queue st.activeProviderType
    ({ st with activeProviderType := r.1, queue := [], isProcessing := false }, r.2)

/-- `speak`: default the voice from `currentVoice`, push the item onto the
queue, then `await processQueue()`; the pair returned is the manager state
and the backend calls that happen before this caller's promise resolves. -/
def speak (beh : ProviderBehavior) (arrivals : List (List QueueItem))
    (st : ManagerState) (text : String) (options : TtsSpeakOptions) :
    ManagerState × List Ev :=
  let options := defaultVoice st.currentVoice options
  processQueue beh arrivals { st with queue := st.queue ++ [⟨text, options⟩] }

/-- A behavior where every backend is configured and every speak resolves. -/
def behAllOk : ProviderBehavior :=
  ⟨fun _ => true, fun _ _ _ => true⟩

/-- A behavior where every backend is configured but only the native
backend's speak resolves; every cloud speak rejects. -/
def behCloudFails : ProviderBehavior :=
  ⟨fun _ => true, fun p _ _ => p == TtsProviderType.native⟩

/-- A behavior where no backend reports itself configured. -/
def behNoneConfigured : ProviderBehavior :=
  ⟨fun _ => false, fun _ _ _ => true⟩

/-- Every dispatch begins with a `speak` call carrying the item's own text
and options. -/
theorem dispatch_head_ev (beh : ProviderBehavior) (ps : List TtsProviderType)
    (act : TtsProviderType) (it : QueueItem) :
    ∃ p ok evs, (dispatchOnActive beh ps act it).2
      = Ev.speakCall p it.text it.options ok :: evs := by
  simp only [dispatchOnActive]
  split_ifs <;> exact ⟨_, _, _, rfl⟩

/-- Every item in the queue gets dispatched by the arrival-free drain loop. -/
theorem drainAll_dispatches_mem (beh : ProviderBehavior)
    (ps : List TtsProviderType) :
    ∀ (q : List QueueItem) (act : TtsProviderType) (it : QueueItem), it ∈ q →
      ∃ p ok, Ev.speakCall p it.text it.options ok ∈ (drainAll beh ps q act).2 := by
  intro q
  induction q with
  | nil => intro act it h; cases h
  | cons it0 rest ih =>
    intro act it h
    rcases List.mem_cons.mp h with h | h
    · subst h
      obtain ⟨p, ok, evs, hev⟩ := dispatch_head_ev beh ps act it
      exact ⟨p, ok, by simp [drainAll, hev]⟩
    · obtain ⟨p, ok, hin⟩ := ih (dispatchOnActive beh ps act it0).1 it h
      exact ⟨p, ok, by simp only [drainAll]; exact List.mem_append_right _ hin⟩

/-- Every item in the initial queue gets dispatched by the drain loop, no
matter what other callers enqueue while it runs. -/
theorem drainArr_dispatches_mem (beh : ProviderBehavior)
    (ps : List TtsProviderType) :
    ∀ (arr : List (List QueueItem)) (q : List QueueItem) (act : TtsProviderType)
      (it : QueueItem), it ∈ q →
      ∃ p ok, Ev.speakCall p it.text it.options ok ∈ (drainArr beh ps arr q act).2 := by
  intro arr
  induction arr with
  | nil => intro q act it h; exact drainAll_dispatches_mem beh ps q act it h
  | cons a arrRest ih =>
    intro q act it h
    cases q with
    | nil => cases h
    | cons it0 rest =>
      rcases List.mem_cons.mp h with h | h
      · subst h
        obtain ⟨p, ok, evs, hev⟩ := dispatch_head_ev beh ps act it
        exact ⟨p, ok, by simp [drainArr, hev]⟩
      · obtain ⟨p, ok, hin⟩ :=
          ih (rest ++ a) (dispatchOnActive beh ps act it0).1 it
            (List.mem_append_left a h)
        exact ⟨p, ok, by simp only [drainArr]; exact List.mem_append_right _ hin⟩

/-- C3: starting from an idle manager, a first `speak` request whose dispatch
is still in flight while three further requests are enqueued results in all
four items being dispatched to the active backend's `speak` in FIFO order
(first enqueued, first spoken), each exactly once, after which the manager is
idle again with an empty queue. -/
theorem queue_fifo_four (beh : ProviderBehavior) (ps : List TtsProviderType)
    (act : TtsProviderType) (t1 t2 t3 t4 : String)
    (o1 o2 o3 o4 : TtsSpeakOptions) (hmem : act ∈ ps)
    (h1 : beh.speakOk act t1 o1 = true) (h2 : beh.speakOk act t2 o2 = true)
    (h3 : beh.speakOk act t3 o3 = true) (h4 : beh.speakOk act t4 o4 = true) :
    speak beh [[⟨t2, o2⟩, ⟨t3, o3⟩, ⟨t4, o4⟩]] ⟨ps, act, none, [], false⟩ t1 o1 =
      (⟨ps, act, none, [], false⟩,
       [Ev.speakCall act t1 o1 true, Ev.speakCall act t2 o2 true,
        Ev.speakCall act t3 o3 true, Ev.speakCall act t4 o4 true]) := by
  simp [speak, defaultVoice, strFalsy, processQueue, drainArr, drainAll,
    dispatchOnActive, hmem, h1, h2, h3, h4]

/-- Witness for `queue_fifo_four`: four concrete requests on the native
backend. -/
theorem queue_fifo_four_witness :
    speak behAllOk [[⟨"b", {}⟩, ⟨"c", {}⟩, ⟨"d", {}⟩]]
        ⟨[TtsProviderType.native], TtsProviderType.native, none, [], false⟩ "a" {} =
      (⟨[TtsProviderType.native], TtsProviderType.native, none, [], false⟩,
       [Ev.speakCall TtsProviderType.native "a" {} true,
        Ev.speakCall TtsProviderType.native "b" {} true,
        Ev.speakCall TtsProviderType.native "c" {} true,
        Ev.speakCall TtsProviderType.native "d" {} true]) :=
  queue_fifo_four behAllOk [TtsProviderType.native] TtsProviderType.native
    "a" "b" "c" "d" {} {} {} {} (by decide) rfl rfl rfl rfl

/-- C4: when the active backend's `speak` rejects for a queued item and the
active backend is not native, the drain loop invokes the native backend's
`speak` exactly once with the same text and options for that item (whatever
the fallback's own outcome, which is swallowed), and then continues with the
remaining queued items; the dispatch step itself is total, so nothing
escapes the drain loop. -/
theorem fallback_on_failure (beh : ProviderBehavior)
    (ps : List TtsProviderType) (act : TtsProviderType) (it : QueueItem)
    (rest : List QueueItem) (hmem : act ∈ ps)
    (hnat : TtsProviderType.native ∈ ps)
    (hfail : beh.speakOk act it.text it.options = false)
    (hnn : act ≠ TtsProviderType.native) :
    dispatchOnActive beh ps act it =
      (act, [Ev.speakCall act it.text it.options false,
             Ev.speakCall TtsProviderType.native it.text it.options
               (beh.speakOk TtsProviderType.native it.text it.options)])
    ∧ drainAll beh ps (it :: rest) act =
        ((drainAll beh ps rest act).1,
         Ev.speakCall act it.text it.options false ::
           Ev.speakCall TtsProviderType.native it.text it.options
             (beh.speakOk TtsProviderType.native it.text it.options) ::
           (drainAll beh ps rest act).2) := by
  have hd : dispatchOnActive beh ps act it =
      (act, [Ev.speakCall act it.text it.options false,
             Ev.speakCall TtsProviderType.native it.text it.options
               (beh.speakOk TtsProviderType.native it.text it.options)]) := by
    simp [dispatchOnActive, hmem, hfail, hnn, hnat]
  refine ⟨hd, ?_⟩
  simp [drainAll, hd]

/-- Witness for `fallback_on_failure`: the azure backend rejects a concrete
item and native is invoked once with the same text and options. -/
theorem fallback_on_failure_witness :
    dispatchOnActive behCloudFails
        [TtsProviderType.native, TtsProviderType.azure] TtsProviderType.azure
        ⟨"hi", {}⟩ =
      (TtsProviderType.azure,
       [Ev.speakCall TtsProviderType.azure "hi" {} false,
        Ev.speakCall TtsProviderType.native "hi" {} true])
    ∧ drainAll behCloudFails [TtsProviderType.native, TtsProviderType.azure]
        [⟨"hi", {}⟩] TtsProviderType.azure =
      (TtsProviderType.azure,
       [Ev.speakCall TtsProviderType.azure "hi" {} false,
        Ev.speakCall TtsProviderType.native "hi" {} true]) :=
  fallback_on_failure behCloudFails
    [TtsProviderType.native, TtsProviderType.azure] TtsProviderType.azure
    ⟨"hi", {}⟩ [] (by decide) (by decide) rfl (by decide)

/-- C7: `setActiveProvider` fails with the `is not configured` error for an
unregistered id, fails with the `is not properly configured` error when the
backend reports itself unconfigured, leaves the whole manager state — hence
the provider reported by `getActiveProvider` — unchanged in both failure
cases, and commits the switch exactly when both checks pass. -/
theorem set_active_provider_protocol (beh : ProviderBehavior)
    (st : ManagerState) (p : TtsProviderType) :
    (p ∉ st.providers →
      setActiveProvider beh st p =
        (st, Except.error ("Provider " ++ providerTypeName p ++ " is not configured")))
    ∧ (p ∈ st.providers → beh.isConfigured p = false →
      setActiveProvider beh st p =
        (st, Except.error ("Provider " ++ providerTypeName p ++ " is not properly configured")))
    ∧ (p ∈ st.providers → beh.isConfigured p = true →
      setActiveProvider beh st p = ({ st with activeProviderType := p }, Except.ok ()))
    ∧ ((setActiveProvider beh st p).2 ≠ Except.ok () →
      getActiveProviderType (setActiveProvider beh st p).1 = getActiveProviderType st
      ∧ getActiveProvider (setActiveProvider beh st p).1 = getActiveProvider st) := by
  refine ⟨?_, ?_, ?_, ?_⟩
  · intro hp; simp [setActiveProvider, hp]
  · intro hp hc; simp [setActiveProvider, hp, hc]
  · intro hp hc; simp [setActiveProvider, hp, hc]
  · intro hne
    by_cases hp : p ∈ st.providers
    · by_cases hc : beh.isConfigured p = true
      · exact absurd (by simp [setActiveProvider, hp, hc]) hne
      · simp [setActiveProvider, hp, hc]
    · simp [setActiveProvider, hp]

/-- Witness for `set_active_provider_protocol`: the three protocol branches
at concrete registries. -/
theorem set_active_provider_protocol_witness :
    setActiveProvider behAllOk
        ⟨[TtsProviderType.native], TtsProviderType.native, none, [], false⟩
        TtsProviderType.azure =
      (⟨[TtsProviderType.native], TtsProviderType.native, none, [], false⟩,
       Except.error ("Provider " ++ providerTypeName TtsProviderType.azure
         ++ " is not configured"))
    ∧ setActiveProvider behNoneConfigured
        ⟨[TtsProviderType.native], TtsProviderType.native, none, [], false⟩
        TtsProviderType.native =
      (⟨[TtsProviderType.native], TtsProviderType.native, none, [], false⟩,
       Except.error ("Provider " ++ providerTypeName TtsProviderType.native
         ++ " is not properly configured"))
    ∧ setActiveProvider behAllOk
        ⟨[TtsProviderType.native, TtsProviderType.azure], TtsProviderType.native,
          none, [], false⟩ TtsProviderType.azure =
      (⟨[TtsProviderType.native, TtsProviderType.azure], TtsProviderType.azure,
          none, [], false⟩, Except.ok ()) :=
  ⟨(set_active_provider_protocol behAllOk _ _).1 (by decide),
   (set_active_provider_protocol behNoneConfigured _ _).2.1 (by decide) rfl,
   (set_active_provider_protocol behAllOk _ _).2.2.1 (by decide) rfl⟩

/-- C5 is violated by the code: the manager keeps a single `currentVoice`
and no per-backend voice map; `setVoice` updates only `currentVoice` and a
successful `setActiveProvider` neither restores nor clears it. Evaluating
the embedded code: with the voice "x" set while native is active, switching
to google-cloud (which has no remembered voice) leaves "x" as the current
voice instead of clearing it, so the voice id leaks into the other
backend's requests. -/
theorem voice_leaks_across_provider_switch :
    ((setActiveProvider behAllOk
        (setVoice ⟨[TtsProviderType.native, TtsProviderType.googleCloud],
          TtsProviderType.native, none, [], false⟩ "x")
        TtsProviderType.googleCloud).1.activeProviderType
      = TtsProviderType.googleCloud)
    ∧ getVoice (setActiveProvider behAllOk
        (setVoice ⟨[TtsProviderType.native, TtsProviderType.googleCloud],
          TtsProviderType.native, none, [], false⟩ "x")
        TtsProviderType.googleCloud).1 = some "x" := by
  decide

/-- C6 is violated by the code: a `speak` call made while another drain is
in flight returns as soon as its `processQueue` call bails out on the
`isProcessing` guard — the caller's promise resolves with its item still
sitting undispatched in the queue and no backend call made. -/
theorem speak_resolves_early_counterexample :
    (speak behAllOk []
        ⟨[TtsProviderType.native], TtsProviderType.native, none, [], true⟩
        "hello" {}).2 = []
    ∧ (speak behAllOk []
        ⟨[TtsProviderType.native], TtsProviderType.native, none, [], true⟩
        "hello" {}).1.queue = [⟨"hello", {}⟩] := by
  decide

/-- C6 amended: `speak`'s promise resolves when its `processQueue` call
returns — immediately, with the item merely enqueued and no backend call
made, when another drain is already in flight; and otherwise only after the
drain it starts has emptied the whole queue (clearing `isProcessing`), by
which time its own item has been dispatched (among any other queued or
concurrently arriving items, whose completion the caller also waits for). -/
theorem speak_resolution (beh : ProviderBehavior)
    (arr : List (List QueueItem)) (st : ManagerState) (text : String)
    (options : TtsSpeakOptions) :
    (st.isProcessing = true →
      speak beh arr st text options =
        ({ st with queue := st.queue ++ [⟨text, defaultVoice st.currentVoice options⟩] }, []))
    ∧ (st.isProcessing = false →
      (speak beh arr st text options).1.queue = []
      ∧ (speak beh arr st text options).1.isProcessing = false
      ∧ ∃ p ok, Ev.speakCall p text (defaultVoice st.currentVoice options) ok
          ∈ (speak beh arr st text options).2) := by
  constructor
  · intro h
    simp [speak, processQueue, h]
  · intro h
    refine ⟨?_, ?_, ?_⟩
    · simp [speak, processQueue, h]
    · simp [speak, processQueue, h]
    · obtain ⟨p, ok, hin⟩ := drainArr_dispatches_mem beh st.providers arr
        (st.queue ++ [⟨text, defaultVoice st.currentVoice options⟩])
        st.activeProviderType ⟨text, defaultVoice st.currentVoice options⟩
        (List.mem_append_right _ (List.mem_singleton.mpr rfl))
      refine ⟨p, ok, ?_⟩
      simpa [speak, processQueue, h] using hin

/-- Witness for `speak_resolution`: both branches at concrete states — a
mid-drain manager where the call resolves with the item still queued, and an
idle manager where the call drains its own item. -/
theorem speak_resolution_witness :
    speak behAllOk []
        ⟨[TtsProviderType.native], TtsProviderType.native, none, [], true⟩
        "a" {} =
      (⟨[TtsProviderType.native], TtsProviderType.native, none,
        [⟨"a", {}⟩], true⟩, [])
    ∧ ((speak behAllOk []
          ⟨[TtsProviderType.native], TtsProviderType.native, none, [], false⟩
          "a" {}).1.queue = []
      ∧ (speak behAllOk []
          ⟨[TtsProviderType.native], TtsProviderType.native, none, [], false⟩
          "a" {}).1.isProcessing = false
      ∧ ∃ p ok, Ev.speakCall p "a" {} ok
          ∈ (speak behAllOk []
              ⟨[TtsProviderType.native], TtsProviderType.native, none, [], false⟩
              "a" {}).2) :=
  ⟨(speak_resolution behAllOk []
      ⟨[TtsProviderType.native], TtsProviderType.native, none, [], true⟩
      "a" {}).1 rfl,
   (speak_resolution behAllOk []
      ⟨[TtsProviderType.native], TtsProviderType.native, none, [], false⟩
      "a" {}).2 rfl⟩

end TtsManager

namespace AzureTts

open TtsManager (TtsProviderType)

/-- `TtsProviderError` of `types.ts`: a backend-tagged error object. -/
structure TtsProviderError where
  code : String
  message : String
  provider : TtsProviderType
  deriving DecidableEq, Repr

/-- The mutable fields of `AzureTtsProvider` relevant to its speak/stop
lifecycle: the credentials, whether a `synthesizer` object is held, and the
`isPlaying` reentrancy flag. -/
structure AzureState where
  apiKey : Option String
  region : Option String
  hasSynthesizer : Bool
  isPlaying : Bool
  deriving DecidableEq, Repr

/-- Observable lifecycle side effects of `AzureTtsProvider.speak`. -/
inductive AzEv
  | onStart
  | onStop
  | synthesisStarted
  deriving DecidableEq, Repr

/-- Outcome of the synchronous prefix of `AzureTtsProvider.speak`, up to the
point where the synthesis callback is registered: either the returned
promise rejects at once, or a synthesis is in flight. -/
inductive SpeakBeginResult
  | rejected (e : TtsProviderError)
  | inFlight
  deriving DecidableEq, Repr

/-- The prefix of `AzureTtsProvider.speak` before the SDK callback fires:
reject with `ALREADY_PLAYING` while a previous speak has not terminated;
otherwise obtain the speech config (whose missing-credentials failure is
re-thrown by the catch block after clearing `isPlaying` and firing
`onStop`), create the synthesizer, set `isPlaying`, fire `onStart` and start
the synthesis. The SDK `require` is assumed available — module loading is
environment plumbing outside this model. -/
def azureSpeakBegin (st : AzureState) : AzureState × List AzEv × SpeakBeginResult :=
  if st.isPlaying then
    (st, [], SpeakBeginResult.rejected
      ⟨"ALREADY_PLAYING", "Azure TTS is already playing audio", TtsProviderType.azure⟩)
  else if st.apiKey.isNone || st.region.isNone then
    ({ st with isPlaying := false }, [AzEv.onStop],
     SpeakBeginResult.rejected
       ⟨"MISSING_CREDENTIALS", "Azure Speech API key and region are required",
        TtsProviderType.azure⟩)
  else
    ({ st with hasSynthesizer := true, isPlaying := true },
     [AzEv.onStart, AzEv.synthesisStarted], SpeakBeginResult.inFlight)

/-- The SDK completion callbacks of `AzureTtsProvider.speak`: both the
success and the error callback clear `isPlaying`, fire `onStop`, close and
drop the synthesizer, and settle the promise (resolving on
`SynthesizingAudioCompleted`, rejecting with a backend-tagged
`SYNTHESIS_ERROR` otherwise). -/
def azureSpeakSettle (st : AzureState) (success : Bool)
    (errorDetails : String) : AzureState × List AzEv × Except TtsProviderError Unit :=
  let st := { st with isPlaying := false, hasSynthesizer := false }
  if success then (st, [AzEv.onStop], Except.ok ())
  else (st, [AzEv.onStop],
    Except.error ⟨"SYNTHESIS_ERROR", errorDetails, TtsProviderType.azure⟩)

/-- `AzureTtsProvider.stop`: close and drop any held synthesizer and clear
`isPlaying`. -/
def azureStop (st : AzureState) : AzureState :=
  { st with hasSynthesizer := false, isPlaying := false }

/-- C10: calling `speak` while a previous speak has started and not yet
terminated rejects immediately with the backend-tagged `ALREADY_PLAYING`
error, changes no state and starts no second synthesis; `isPlaying` is
cleared on every termination path — completion callback (success or
failure), the catch block around setup, and `stop` — and after any of those
a configured provider accepts `speak` again (no `ALREADY_PLAYING`
rejection). -/
theorem already_playing_protocol (st st2 st3 : AzureState) (b : Bool)
    (ed k r : String) (hplay : st.isPlaying = true)
    (hk : st2.apiKey = some k) (hr : st2.region = some r)
    (h3 : st3.isPlaying = false) :
    azureSpeakBegin st =
      (st, [], SpeakBeginResult.rejected
        ⟨"ALREADY_PLAYING", "Azure TTS is already playing audio", TtsProviderType.azure⟩)
    ∧ (azureSpeakSettle st2 b ed).1.isPlaying = false
    ∧ (azureStop st2).isPlaying = false
    ∧ (azureSpeakBegin st3).1.isPlaying
        = ((azureSpeakBegin st3).2.2 == SpeakBeginResult.inFlight)
    ∧ (azureSpeakBegin (azureSpeakSettle st2 b ed).1).2.2 = SpeakBeginResult.inFlight
    ∧ (azureSpeakBegin (azureStop st2)).2.2 = SpeakBeginResult.inFlight := by
  refine ⟨?_, ?_, rfl, ?_, ?_, ?_⟩
  · simp [azureSpeakBegin, hplay]
  · cases b <;> rfl
  · simp only [azureSpeakBegin]
    split_ifs with h1 h2
    · simp [h1] at h3
    · simp
    · simp
  · cases b <;> simp [azureSpeakBegin, azureSpeakSettle, hk, hr]
  · simp [azureSpeakBegin, azureStop, hk, hr]

/-- Witness for `already_playing_protocol` at concrete provider states. -/
theorem already_playing_protocol_witness :
    azureSpeakBegin ⟨some "key", some "westus", true, true⟩ =
      (⟨some "key", some "westus", true, true⟩, [],
       SpeakBeginResult.rejected
         ⟨"ALREADY_PLAYING", "Azure TTS is already playing audio", TtsProviderType.azure⟩)
    ∧ (azureSpeakSettle ⟨some "key", some "westus", true, true⟩ false "boom").1.isPlaying = false
    ∧ (azureStop ⟨some "key", some "westus", true, true⟩).isPlaying = false
    ∧ (azureSpeakBegin ⟨none, none, false, false⟩).1.isPlaying =
        ((azureSpeakBegin ⟨none, none, false, false⟩).2.2 == SpeakBeginResult.inFlight)
    ∧ (azureSpeakBegin (azureSpeakSettle ⟨some "key", some "westus", true, true⟩ false "boom").1).2.2
        = SpeakBeginResult.inFlight
    ∧ (azureSpeakBegin (azureStop ⟨some "key", some "westus", true, true⟩)).2.2
        = SpeakBeginResult.inFlight :=
  already_playing_protocol ⟨some "key", some "westus", true, true⟩
    ⟨some "key", some "westus", true, true⟩ ⟨none, none, false, false⟩
    false "boom" "key" "westus" rfl rfl rfl rfl

end AzureTts
